import Mathlib

/-!
# Verification of the dashboard-pyg extraction core

A shallow embedding, in Lean 4, of the data-extraction core of the
`dashboard-pyg` repository:

* `src/utils/data_loader.py`   — `DataLoader` (P&L tabular ingestor);
* `src/utils/balance_loader.py`— `BalanceLoader`, `calculate_financial_ratios`;
* `src/utils/kpi_extractor.py` — `KPIExtractor` (line-item and detail extraction);
* `src/config/kpi_mappings.py` — the pattern registry and `match_pattern`.

Modelling conventions:

* Numeric cell values are rationals (`ℚ`).  The Python code computes with
  floats; every property verified here concerns branch structure, sign and
  exact zero tests, which floats and rationals decide identically on the
  inputs in question (no rounding-dependent property is stated).
* Python's `re` patterns that appear in the sources are translated into an
  executable regular-expression engine (Brzozowski derivatives) below; each
  concrete pattern of the sources is transcribed constructor by constructor.
* Python exceptions are modelled with `Except`; the two exception classes of
  `data_loader.py` (`ValidationError` vs. other, generic exceptions such as
  pandas' "Length mismatch" `ValueError`) are kept distinct.
-/

namespace PyG

/-! ## A small regular-expression engine

Executable matcher for the regex subset used by `kpi_mappings.py`:
character literals, character classes (`[oó]`, `\s`, `\d`, negated classes),
sequencing, alternation, `*`, `+`, `?`.  Matching is by Brzozowski
derivatives; `prefMatch` is Python's `re.match` (match a prefix) and
`searchL` is Python's `re.search` (match anywhere).  -/

inductive Regex where
  | emp : Regex
  | eps : Regex
  | cls (p : Char → Bool) : Regex
  | seq (a b : Regex) : Regex
  | alt (a b : Regex) : Regex
  | star (a : Regex) : Regex

def Regex.nullable : Regex → Bool
  | .emp => false
  | .eps => true
  | .cls _ => false
  | .seq a b => a.nullable && b.nullable
  | .alt a b => a.nullable || b.nullable
  | .star _ => true

/-- Smart sequencing: collapses the empty and impossible regexes so that
derivatives stay small. -/
def Regex.mseq : Regex → Regex → Regex
  | .emp, _ => .emp
  | _, .emp => .emp
  | .eps, b => b
  | a, .eps => a
  | a, b => .seq a b

/-- Smart alternation: drops impossible branches. -/
def Regex.malt : Regex → Regex → Regex
  | .emp, b => b
  | a, .emp => a
  | a, b => .alt a b

def Regex.deriv : Regex → Char → Regex
  | .emp, _ => .emp
  | .eps, _ => .emp
  | .cls p, c => if p c then .eps else .emp
  | .seq a b, c =>
      if a.nullable then (Regex.mseq (a.deriv c) b).malt (b.deriv c)
      else Regex.mseq (a.deriv c) b
  | .alt a b, c => (a.deriv c).malt (b.deriv c)
  | .star a, c => Regex.mseq (a.deriv c) (.star a)

/-- Does some prefix of `cs` match `r`?  This is Python's `re.match`. -/
def prefMatch : Regex → List Char → Bool
  | r, [] => r.nullable
  | r, c :: cs => r.nullable || prefMatch (r.deriv c) cs

/-- Does `r` match starting at some position of `cs`?  This is Python's
`re.search`. -/
def searchL (r : Regex) : List Char → Bool
  | [] => r.nullable
  | c :: cs => prefMatch r (c :: cs) || searchL r cs

/-- Does the whole string match `r`?  This is `re.match` of a pattern that is
anchored on both sides with `^...$`. -/
def fullMatch (r : Regex) (cs : List Char) : Bool :=
  Regex.nullable (cs.foldl Regex.deriv r)

/-! ### Combinators for transcribing the concrete patterns -/

def rchar (c : Char) : Regex := .cls (fun d => d = c)

/-- A literal string of characters. -/
def rlit (s : String) : Regex := s.toList.foldr (fun c r => Regex.mseq (rchar c) r) .eps

/-- `[xy]`: a two-character class. -/
def rcls2 (a b : Char) : Regex := .cls (fun d => d = a || d = b)

/-- The whitespace characters stripped by Python's `str.strip()` and matched
by `\s`. -/
def isPyWs (c : Char) : Bool :=
  c = ' ' || c = '\t' || c = '\n' || c = '\r' || c = '\x0b' || c = '\x0c'

/-- Python `\s`: one whitespace character. -/
def rws : Regex := .cls isPyWs

/-- Python `\s+`. -/
def rwsP : Regex := .seq rws (.star rws)

/-- Python `\s*`. -/
def rwsS : Regex := .star rws

/-- Python `\d`: one decimal digit. -/
def rdigit : Regex := .cls Char.isDigit

/-- Python `\d+`. -/
def rdigitP : Regex := .seq rdigit (.star rdigit)

/-- `r?`. -/
def ropt (r : Regex) : Regex := .alt .eps r

def rseqs (rs : List Regex) : Regex := rs.foldr Regex.mseq .eps

/-- Words joined by `\s+`, e.g. the pattern `gastos\s+de\s+personal`. -/
def phrase : List String → Regex
  | [] => .eps
  | [w] => rlit w
  | w :: ws => Regex.mseq (rlit w) (Regex.mseq rwsP (phrase ws))

/-! ## Python string primitives used by the sources -/

/-- `str.lower()`, restricted to the alphabet the sources use: ASCII letters
plus the accented Spanish vowels and eñe appearing in the spreadsheets. -/
def pyLowerChar (c : Char) : Char :=
  if 'A' ≤ c ∧ c ≤ 'Z' then Char.ofNat (c.toNat + 32)
  else if c = 'Á' then 'á'
  else if c = 'É' then 'é'
  else if c = 'Í' then 'í'
  else if c = 'Ó' then 'ó'
  else if c = 'Ú' then 'ú'
  else if c = 'Ñ' then 'ñ'
  else c

def pyLower (s : String) : String := String.mk (s.toList.map pyLowerChar)

/-- `str.strip()`: drop whitespace from both ends. -/
def pyStrip (s : String) : String :=
  String.mk (((s.toList.dropWhile isPyWs).reverse.dropWhile isPyWs).reverse)

/-- `str.startswith(pre)` (also embeds the anchored regex-literal prefix
tests done with `re.match`). -/
def pyStarts (s pre : String) : Bool := List.isPrefixOf pre.toList s.toList

/-- `s[n:]` on a string (character count). -/
def pyDrop (s : String) (n : ℕ) : String := String.mk (s.toList.drop n)

/-! ## `config/kpi_mappings.py` -/

/-- `match_pattern(text, patterns)` lowers and strips the text once and then
searches each pattern in it.  A registry pattern is therefore embedded as a
`String → Bool` applied to the prepared (lowered, stripped) text. -/
def Pat : Type := String → Bool

/-- A pattern given by an `re.search` of a regex (the usual case; the
`re.IGNORECASE` flag is absorbed by writing the pattern in lowercase and
matching lowered text). -/
def sre (r : Regex) : Pat := fun t => searchL r t.toList

/-- Python `\w` (ASCII view): letters, digits, underscore. -/
def wordChar (c : Char) : Bool := c.isAlphanum || c = '_'

/-- The one pattern using a word boundary, `ebit\b`: the text contains `ebit`
followed by a non-word character, or ends in `ebit`. -/
def ebitB : Pat := fun t =>
  searchL (Regex.mseq (rlit "ebit") (.cls (fun c => !wordChar c))) t.toList
    || List.isSuffixOf "ebit".toList t.toList

/-- `match_pattern(text, patterns)` from `kpi_mappings.py`:
lower, strip, then true iff any pattern searches successfully. -/
def matchPattern (text : String) (patterns : List Pat) : Bool :=
  let t := pyStrip (pyLower text)
  patterns.any (fun p => p t)

/-- One entry of `KPI_MAPPINGS`.  `sign` is `1` or `-1`; `required` and
`default` carry the effective values read by
`config.get('required', False)` / `config.get('default', 0)`. -/
structure KpiConfig where
  patterns : List Pat
  sign : Int
  required : Bool
  default : ℚ

/-! The ten entries of `KPI_MAPPINGS`, in dictionary (insertion) order, each
pattern transcribed from `kpi_mappings.py`. -/

def ingresosCfg : KpiConfig :=
  { patterns :=
      [ sre (rseqs [rchar '1', ropt (rchar '.'), rwsS,
          phrase ["importe", "neto", "de", "la", "cifra", "de", "negocios"]])
      , sre (phrase ["importe", "neto", "cifra", "negocios"])
      , sre (phrase ["cifra", "de", "negocios"])
      , sre (phrase ["ventas", "netas"])
      , sre (phrase ["ingresos", "netos"]) ]
    sign := 1, required := true, default := 0 }

def aprovisionamientosCfg : KpiConfig :=
  { patterns :=
      [ sre (rseqs [rchar '4', ropt (rchar '.'), rwsS, rlit "aprovisionamientos"])
      , sre (rlit "aprovisionamientos")
      , sre (rseqs [rlit "compras", rwsP, rlit "de", rwsP,
          rlit "mercader", rcls2 'i' 'í', rlit "as"]) ]
    sign := -1, required := true, default := 0 }

def gastosPersonalCfg : KpiConfig :=
  { patterns :=
      [ sre (rseqs [rchar '6', ropt (rchar '.'), rwsS, phrase ["gastos", "de", "personal"]])
      , sre (phrase ["gastos", "personal"])
      , sre (phrase ["gastos", "de", "personal"]) ]
    sign := -1, required := true, default := 0 }

/-- `explotaci[oó]n` as a regex tail. -/
def explotacion : Regex := rseqs [rlit "explotaci", rcls2 'o' 'ó', rchar 'n']

def otrosGastosCfg : KpiConfig :=
  { patterns :=
      [ sre (rseqs [rchar '7', ropt (rchar '.'), rwsS,
          rlit "otros", rwsP, rlit "gastos", rwsP, rlit "de", rwsP, explotacion])
      , sre (rseqs [rlit "otros", rwsP, rlit "gastos", rwsP, explotacion])
      , sre (rseqs [rlit "otros", rwsP, rlit "gastos", rwsP, rlit "de", rwsP, explotacion]) ]
    sign := -1, required := true, default := 0 }

/-- `amortizaci[oó]n` as a regex. -/
def amortizacionRe : Regex := rseqs [rlit "amortizaci", rcls2 'o' 'ó', rchar 'n']

def amortizacionCfg : KpiConfig :=
  { patterns :=
      [ sre (rseqs [rchar '8', ropt (rchar '.'), rwsS,
          amortizacionRe, rwsP, rlit "del", rwsP, rlit "inmovilizado"])
      , sre (rseqs [amortizacionRe, rwsP, rlit "inmovilizado"])
      , sre amortizacionRe ]
    sign := -1, required := true, default := 0 }

def ebitdaCfg : KpiConfig :=
  { patterns :=
      [ sre (rseqs [rchar 'a', ropt (rchar ')'), rwsS,
          phrase ["resultado", "de", "explotacion"]])
      , sre (rseqs [rchar 'a', ropt (rchar ')'), rwsS,
          rlit "resultado", rwsP, rlit "de", rwsP, explotacion])
      , sre (rseqs [rdigitP, ropt (rchar '.'), rwsS,
          rlit "resultado", rwsP, rlit "de", rwsP, explotacion])
      , sre (phrase ["resultado", "de", "explotacion"])
      , sre (rseqs [rlit "resultado", rwsP, rlit "de", rwsP, explotacion])
      , sre (rseqs [rlit "resultado", rwsP, explotacion])
      , sre (rlit "ebitda")
      , ebitB
      , sre (phrase ["beneficio", "operativo"]) ]
    sign := 1, required := true, default := 0 }

def resultadoFinancieroCfg : KpiConfig :=
  { patterns :=
      [ sre (rseqs [rchar 'b', ropt (rchar ')'), rwsS,
          phrase ["resultado", "financiero"]])
      , sre (phrase ["resultado", "financiero"]) ]
    sign := 1, required := false, default := 0 }

def resultadoNetoCfg : KpiConfig :=
  { patterns :=
      [ sre (rseqs [rchar 'd', ropt (rchar ')'), rwsS,
          phrase ["resultado", "del", "ejercicio"]])
      , sre (rseqs [rdigitP, ropt (rchar '.'), rwsS,
          phrase ["resultado", "del", "ejercicio"]])
      , sre (phrase ["resultado", "del", "ejercicio"])
      , sre (phrase ["beneficio", "neto"])
      , sre (phrase ["resultado", "neto"])
      , sre (rseqs [rlit "beneficio", rwsS, rchar '/', rwsS,
          rchar 'p', rcls2 'e' 'é', rlit "rdida", rwsP, rlit "del", rwsP, rlit "ejercicio"])
      , sre (rseqs [rlit "resultado", rwsP, rlit "despu", rcls2 'e' 'é', rchar 's',
          rwsP, rlit "de", rwsP, rlit "impuestos"]) ]
    sign := 1, required := true, default := 0 }

def otrosIngresosCfg : KpiConfig :=
  { patterns :=
      [ sre (rseqs [rchar '5', ropt (rchar '.'), rwsS,
          rlit "otros", rwsP, rlit "ingresos", rwsP, rlit "de", rwsP, explotacion])
      , sre (rseqs [rlit "otros", rwsP, rlit "ingresos", rwsP, explotacion])
      , sre (phrase ["otros", "ingresos"]) ]
    sign := 1, required := false, default := 0 }

def gastosFinancierosCfg : KpiConfig :=
  { patterns :=
      [ sre (rseqs [rlit "14", ropt (rchar '.'), rwsS,
          phrase ["gastos", "financieros"]])
      , sre (phrase ["gastos", "financieros"]) ]
    sign := -1, required := false, default := 0 }

/-- `KPI_MAPPINGS` as an ordered association list (Python dicts preserve
insertion order, and `extract_all` iterates `.items()` in that order). -/
def KPI_MAPPINGS : List (String × KpiConfig) :=
  [ ("ingresos", ingresosCfg)
  , ("aprovisionamientos", aprovisionamientosCfg)
  , ("gastos_personal", gastosPersonalCfg)
  , ("otros_gastos", otrosGastosCfg)
  , ("amortizacion", amortizacionCfg)
  , ("ebitda", ebitdaCfg)
  , ("resultado_financiero", resultadoFinancieroCfg)
  , ("resultado_neto", resultadoNetoCfg)
  , ("otros_ingresos", otrosIngresosCfg)
  , ("gastos_financieros", gastosFinancierosCfg) ]

/-! ## The processed grid seen by `KPIExtractor`

After `DataLoader.load`, the dataframe handed to `KPIExtractor(df, years)`
has text-bearing columns (`Concepto`, `ColN`, …) and numeric year columns
(`_clean_data` coerces every year column with `to_numeric(...).fillna(0)`,
so year cells are plain numbers).  The extractor reads a text column only
through `str(row.get(col, ''))` and a year column only through `row[year]`,
so a row is embedded as the two corresponding association lists.  -/

structure Row where
  /-- Non-year columns: `(column name, str(cell))`. -/
  texts : List (String × String)
  /-- Year columns: `(column name, numeric cell value)`. -/
  nums : List (String × ℚ)

/-- A processed grid: the rows of the dataframe, in order. -/
abbrev Grid := List Row

/-- The inner column scan of `_find_kpi`: skip year columns
(`if col in self.years: continue`), then
`cell_value = str(row.get(col, ''))`; a row is found when some remaining
cell is non-empty and `match_pattern(cell_value, patterns)` holds. -/
def rowMatches (years : List String) (patterns : List Pat) (r : Row) : Bool :=
  r.texts.any (fun tc =>
    !(years.contains tc.1) && tc.2 ≠ "" && matchPattern tc.2 patterns)

/-- The per-year value read by `_find_kpi` from a matched row:
`row[year]` if the year column exists (else `0`), with
`abs` applied when `sign == -1`.  (`pd.isna` cannot fire on a cleaned
grid, whose year cells are numbers.) -/
def kpiValue (sign : Int) (r : Row) (y : String) : ℚ :=
  match r.nums.lookup y with
  | some v => if sign = -1 then |v| else v
  | none => 0

/-- The `{year: value}` map built by `_find_kpi` for a matched row. -/
def rowKpi (years : List String) (sign : Int) (r : Row) : List (String × ℚ) :=
  years.map (fun y => (y, kpiValue sign r y))

/-- `_find_kpi`: scan rows in order, return the year map of the first
matching row, `None` if no row matches. -/
def findKpi (g : Grid) (years : List String) (cfg : KpiConfig) :
    Option (List (String × ℚ)) :=
  match g.find? (rowMatches years cfg.patterns) with
  | some r => some (rowKpi years cfg.sign r)
  | none => none

/-- `extract_all`: iterate the registry in order; a found concept stores its
row map, a missing required concept goes (only) to the missing list, a
missing optional concept stores `{year: default}`.  The recursion produces
the same two lists, in the same order, as the Python loop over
`KPI_MAPPINGS.items()`. -/
def extractAll (g : Grid) (years : List String) :
    List (String × KpiConfig) → List (String × List (String × ℚ)) × List String
  | [] => ([], [])
  | (name, cfg) :: rest =>
    match findKpi g years cfg with
    | some m => ((name, m) :: (extractAll g years rest).1, (extractAll g years rest).2)
    | none =>
      if cfg.required then ((extractAll g years rest).1, name :: (extractAll g years rest).2)
      else ((name, years.map (fun y => (y, cfg.default))) :: (extractAll g years rest).1,
        (extractAll g years rest).2)

/-! ## `DETAILED_MAPPINGS` and the detail-section extractors -/

/-- `str(row.get('Concepto', ''))`. -/
def rowConcepto (r : Row) : String := ((r.texts.find? (fun tc => tc.1 = "Concepto")).map (·.2)).getD ""

/-- Parent pattern `705\s+PRESTACIONES\s+DE\s+SERVICIOS`, searched with
`re.IGNORECASE` (modelled by lowering both sides). -/
def serviciosParentMatch (c : String) : Bool :=
  searchL (phrase ["705", "prestaciones", "de", "servicios"]) (pyLower c).toList

/-- Stop pattern `2\.\s*Variaci[oó]n`, searched with `re.IGNORECASE`. -/
def serviciosStopMatch (c : String) : Bool :=
  searchL (rseqs [rchar '2', rchar '.', rwsS, rlit "variaci", rcls2 'o' 'ó', rchar 'n'])
    (pyLower c).toList

/-- Item pattern `^705\.0\.0\.` used with the case-sensitive `re.match`:
the label starts with the literal `705.0.0.`. -/
def serviciosItemMatch (c : String) : Bool := pyStarts c "705.0.0."

/-- `re.sub(r'^705\.0\.0\.', '', concepto)`: the anchored literal prefix is
removed when present. -/
def stripServPrefix (c : String) : String :=
  if pyStarts c "705.0.0." then pyDrop c 8 else c

/-- Item pattern `^602\.0\.0\.` of `aprovisionamientos_detalle`. -/
def aprovItemMatch (c : String) : Bool := pyStarts c "602.0.0."

def stripAprovPrefix (c : String) : String :=
  if pyStarts c "602.0.0." then pyDrop c 8 else c

/-- After stripping the item prefix: `.strip()`, then
`nombre.split(' ', 1)[-1]` when the name contains a space (take what follows
the first space). -/
def afterFirstSpace (s : String) : String :=
  match (s.toList.dropWhile (fun c => c ≠ ' ')) with
  | [] => s
  | _ :: rest => String.mk rest

def deriveName (strip : String → String) (c : String) : String :=
  afterFirstSpace (pyStrip (strip c))

/-- Python dict assignment `d[k] = v`: replace in place, else append. -/
def upsert (m : List (String × α)) (k : String) (v : α) : List (String × α) :=
  match m with
  | [] => [(k, v)]
  | (k', v') :: rest => if k' = k then (k, v) :: rest else (k', v') :: upsert rest k v

/-- The dict comprehension `{year: row.get(year, 0) for year in self.years}`
used by `_extract_servicios` (no `abs`). -/
def capturedValue (years : List String) (r : Row) : List (String × ℚ) :=
  years.map (fun y => (y, (r.nums.lookup y).getD 0))

/-- The dict comprehension `{year: abs(row.get(year, 0)) for year in
self.years}` used by the other three detail extractors. -/
def absValues (years : List String) (r : Row) : List (String × ℚ) :=
  years.map (fun y => (y, |(r.nums.lookup y).getD 0|))

/-- One step of the `_extract_servicios` loop on state
`(in_servicios, servicios)`.  Note that the captured value is
`row.get(year, 0)` — no `abs` here, unlike the other three detail
extractors. -/
def serviciosStep (years : List String) (st : Bool × List (String × List (String × ℚ)))
    (r : Row) : Bool × List (String × List (String × ℚ)) :=
  let c := rowConcepto r
  if c = "" then st
  else if serviciosParentMatch c then (true, st.2)
  else if st.1 then
    if serviciosStopMatch c then (false, st.2)
    else if serviciosItemMatch c then
      (true, upsert st.2 (deriveName stripServPrefix c) (capturedValue years r))
    else st
  else st

/-- `_extract_servicios`: the bounded-section scan. -/
def extractServicios (g : Grid) (years : List String) :
    List (String × List (String × ℚ)) :=
  (g.foldl (serviciosStep years) (false, [])).2

/-- One step of the `_extract_aprovisionamientos` loop. -/
def aprovStep (years : List String) (m : List (String × List (String × ℚ)))
    (r : Row) : List (String × List (String × ℚ)) :=
  let c := rowConcepto r
  if c = "" then m
  else if aprovItemMatch c then
    upsert m (deriveName stripAprovPrefix c) (absValues years r)
  else m

/-- `_extract_aprovisionamientos`: direct-item scan, values stored through
`abs(row.get(year, 0))`. -/
def extractAprovisionamientos (g : Grid) (years : List String) :
    List (String × List (String × ℚ)) :=
  g.foldl (aprovStep years) []

/-- The `personal_detalle` category list of `DETAILED_MAPPINGS`
(`re.IGNORECASE` searches, lowered transcription). -/
def personalCategories : List (Pat × String) :=
  [ (sre (phrase ["640", "sueldos"]), "Sueldos y Salarios")
  , (sre (phrase ["642", "seguridad", "social"]), "Seguridad Social")
  , (sre (phrase ["641", "indemnizaciones"]), "Indemnizaciones") ]

/-- The `otros_gastos_detalle` category list of `DETAILED_MAPPINGS`. -/
def otrosGastosCategories : List (Pat × String) :=
  [ (sre (phrase ["622", "reparaciones"]), "Reparaciones y Mantenimiento")
  , (sre (phrase ["623", "servicios", "de", "profesionales"]), "Servicios Profesionales")
  , (sre (phrase ["625", "primas", "de", "seguros"]), "Seguros")
  , (sre (phrase ["627", "publicidad"]), "Publicidad y Marketing")
  , (sre (phrase ["628", "suministros"]), "Suministros")
  , (sre (phrase ["629", "otros", "servicios"]), "Otros Servicios")
  , (sre (phrase ["631", "otros", "tributos"]), "Tributos") ]

/-- One step of the shared loop of `_extract_personal` and
`_extract_otros_gastos`: the first matching `(pattern, label)` pair of the
category list stores `{year: abs(row.get(year, 0))}` under the fixed
label. -/
def categoriesStep (cats : List (Pat × String)) (years : List String)
    (m : List (String × List (String × ℚ))) (r : Row) :
    List (String × List (String × ℚ)) :=
  let c := rowConcepto r
  if c = "" then m
  else
    match cats.find? (fun pc => pc.1 (pyLower c)) with
    | some pc => upsert m pc.2 (absValues years r)
    | none => m

def extractByCategories (cats : List (Pat × String)) (g : Grid) (years : List String) :
    List (String × List (String × ℚ)) :=
  g.foldl (categoriesStep cats years) []

def extractPersonal (g : Grid) (years : List String) := extractByCategories personalCategories g years

def extractOtrosGastos (g : Grid) (years : List String) := extractByCategories otrosGastosCategories g years

/-! ## `DataLoader` (`data_loader.py`)

A raw spreadsheet cell is embedded by the four attributes the loader reads
from it: its `str()` image, its `pd.to_numeric(..., errors='coerce')` value
(`none` when the coercion yields NaN), whether `pd.isna` holds of it, and
whether it is a Python `str` (with, in that case, `txt` being the string
itself, so `len(v)` is `txt.length`). -/

structure RCell where
  txt : String
  num : Option ℚ
  isna : Bool
  isStr : Bool
deriving DecidableEq

/-- The NaN cell (used for out-of-range indexing, which uniform dataframes
never exercise). -/
def naCell : RCell := { txt := "nan", num := none, isna := true, isStr := false }

/-- The raw first sheet as read by `pd.read_excel`: header `str()` images and
row-major cells.  Every row of a dataframe has exactly `cols.length` cells. -/
structure RawDF where
  cols : List String
  rows : List (List RCell)

/-- The two kinds of exception escaping `load`: `ValidationError`, and any
other exception (for these claims: pandas' `ValueError` "Length mismatch"
raised by assigning a wrong-length `df.columns`). -/
inductive LoadErr where
  | validation : LoadErr
  | generic : LoadErr
deriving DecidableEq

/-- The processed dataframe, column-major: named columns plus the row count
(`len(df)`). -/
structure ProcDF where
  cols : List (String × List RCell)
  nrows : ℕ
deriving DecidableEq

/-- The anchored header pattern `^(20\d{2}|19\d{2})$` used with `re.match`:
exactly four characters, `20` or `19` followed by two digits.  (With `re`,
`$` may also match before a final newline, but the scrutinee is always
`.strip()`-ed first, which removes it.) -/
def isYearToken (s : String) : Bool :=
  match s.toList with
  | [a, b, c, d] => ((a = '2' && b = '0') || (a = '1' && b = '9')) && c.isDigit && d.isDigit
  | _ => false

/-- Year columns detected from the headers: `(index, str(col).strip())` for
every header matching the year pattern. -/
def headerYearCols (raw : RawDF) : List (ℕ × String) :=
  raw.cols.enum.filterMap (fun ic =>
    if isYearToken (pyStrip ic.2) then some (ic.1, pyStrip ic.2) else none)

/-- Fallback detection over the first five data rows: `(col_idx, str(val).strip())`
for every cell matching the year pattern, in row-major order. -/
def rowScanYearCols (raw : RawDF) : List (ℕ × String) :=
  ((raw.rows.take 5).map (fun r =>
    r.enum.filterMap (fun jc =>
      if isYearToken (pyStrip jc.2.txt) then some (jc.1, pyStrip jc.2.txt) else none))).flatten

def detectedYearCols (raw : RawDF) : List (ℕ × String) :=
  if headerYearCols raw = [] then rowScanYearCols raw else headerYearCols raw

/-- Lexicographic comparison of character lists by code point — how Python
compares strings. -/
def lexLe : List Char → List Char → Bool
  | [], _ => true
  | _ :: _, [] => false
  | a :: as, b :: bs => if a < b then true else if b < a then false else lexLe as bs

/-- Python string `<=`. -/
def pyStrLe (a b : String) : Bool := lexLe a.toList b.toList

/-- The descending order used by `sorted(..., reverse=True)` on strings. -/
def strDescOrder (a b : String) : Prop := pyStrLe b a = true

instance : DecidableRel strDescOrder := fun a b =>
  inferInstanceAs (Decidable (pyStrLe b a = true))

/-- `sorted(set(...), reverse=True)`: the distinct elements in descending
order. -/
def sortedSetDesc (xs : List String) : List String :=
  xs.dedup.insertionSort strDescOrder

/-- Column `i` of the raw sheet. -/
def colVals (raw : RawDF) (i : ℕ) : List RCell :=
  raw.rows.map (fun r => (r.get? i).getD naCell)

/-- The concept-column heuristic: the first non-year column whose first 20
non-NaN sampled values are more than half strings longer than 5 characters
(`text_count > len(sample) * 0.5`, i.e. `2 * text_count > len(sample)` with
a non-empty sample); default to column 1 (or 0 for a single column). -/
def conceptoCol (raw : RawDF) (yearIdxs : List ℕ) : ℕ :=
  ((List.range raw.cols.length).find? (fun i =>
    !(yearIdxs.contains i) &&
      (let sample := ((colVals raw i).take 20).filter (fun c => !c.isna)
       !sample.isEmpty && sample.length < 2 * sample.countP (fun c => c.isStr && 5 < c.txt.length)))
    ).getD (if 1 < raw.cols.length then 1 else 0)

/-- The column names of the legacy positional fallback
(`df.columns = ['Col1', 'Concepto', ..., '2022']`). -/
def fallbackCols : List String :=
  ["Col1", "Concepto", "Col3", "Col4", "Col5", "Col6", "2025", "2024", "2023", "2022"]

def fallbackYears : List String := ["2025", "2024", "2023", "2022"]

/-- `columns_to_keep`: the dict `{'Concepto': concepto_col}` extended with
`columns_to_keep[year] = idx` for each detected `(idx, year)` — an existing
year key keeps its dict position but takes the later index. -/
def columnsToKeep (cCol : ℕ) (yearCols : List (ℕ × String)) : List (String × ℕ) :=
  yearCols.foldl (fun m iy => upsert m iy.2 iy.1) [("Concepto", cCol)]

/-- `_detect_and_rename_columns`: returns the renamed dataframe together with
the `self.years` it assigns; an exception leaves `self.years = []`. -/
def detectAndRename (raw : RawDF) : Except LoadErr (ProcDF × List String) :=
  match detectedYearCols raw with
  | [] =>
    if 10 ≤ raw.cols.length then
      if raw.cols.length = 10 then
        .ok (⟨fallbackCols.enum.map (fun inm => (inm.2, colVals raw inm.1)), raw.rows.length⟩,
          fallbackYears)
      else
        .error .generic
    else
      .error .validation
  | yc :: ycs =>
    .ok (⟨(columnsToKeep (conceptoCol raw ((yc :: ycs).map (·.1))) (yc :: ycs)).map
          (fun ni => (ni.1, colVals raw ni.2)), raw.rows.length⟩,
      if sortedSetDesc ((yc :: ycs).map (·.2)) = [] then fallbackYears
      else sortedSetDesc ((yc :: ycs).map (·.2)))

/-- `_clean_data`: every year column is coerced with
`pd.to_numeric(..., errors='coerce').fillna(0)`. -/
def cleanData (df : ProcDF) (years : List String) : ProcDF :=
  ⟨df.cols.map (fun nc =>
    if years.contains nc.1 then
      (nc.1, nc.2.map (fun c => { c with num := some (c.num.getD 0), isna := false }))
    else nc), df.nrows⟩

/-- `_validate_structure`: the grid is non-empty, some declared year column
exists, and the year columns hold at least one non-zero value. -/
def validateStructure (df : ProcDF) (years : List String) : Except LoadErr Unit :=
  if df.nrows = 0 then .error .validation
  else
    let yearCols := years.filter (fun y => (df.cols.lookup y).isSome)
    if yearCols = [] then .error .validation
    else
      let total := (yearCols.map (fun y =>
        ((df.cols.lookup y).getD []).countP (fun c => c.num.getD 0 ≠ 0))).sum
      if total = 0 then .error .validation else .ok ()

/-- `DataLoader.load` after `pd.read_excel` succeeded: the returned pair is
(outcome, `self.years` as observable through `get_years()` afterwards). -/
def loadPyG (raw : RawDF) : Except LoadErr ProcDF × List String :=
  match detectAndRename raw with
  | .error e => (.error e, [])
  | .ok (df, years) =>
    let df := cleanData df years
    match validateStructure df years with
    | .error e => (.error e, years)
    | .ok _ => (.ok df, years)

/-! ## `BalanceLoader` (`balance_loader.py`) -/

def balanceCols : List String :=
  ["Col1", "Col2", "Concepto", "Col4", "Col5", "Col6", "2025", "2024", "2023", "2022"]

def balanceYears : List String := ["2025", "2024", "2023", "2022"]

/-- `BalanceLoader.load` after `pd.read_excel`: `df.columns = [...]` assigns
ten names unconditionally — pandas raises a `ValueError` ("Length mismatch"),
a generic exception, whenever the sheet does not have exactly ten columns —
then the four fixed year columns are coerced to numbers. -/
def balanceLoad (raw : RawDF) : Except LoadErr (ProcDF × List String) :=
  if raw.cols.length = 10 then
    .ok (cleanData ⟨balanceCols.enum.map (fun inm => (inm.2, colVals raw inm.1)), raw.rows.length⟩
      balanceYears, balanceYears)
  else
    .error .generic

/-! ## `calculate_financial_ratios` (`balance_loader.py`) -/

/-- `kpis.get(key, {}).get(year, 0)`. -/
def kget (kpis : List (String × List (String × ℚ))) (key year : String) : ℚ :=
  (((kpis.lookup key).getD []).lookup year).getD 0

/-- The thirteen ratios computed for one year, in dict insertion order.
Divisions guarded by `> 0` tests exactly as in the source; over `ℚ` a
guarded quotient is always a finite rational (no NaN/inf arises). -/
def yearRatios (balanceKpis pygKpis : List (String × List (String × ℚ))) (year : String) :
    List (String × ℚ) :=
  let activoTotal := kget balanceKpis "total_activo" year
  let activoCorriente := kget balanceKpis "activo_corriente" year
  let pasivoCorriente := kget balanceKpis "pasivo_corriente" year
  let pasivoNoCorriente := kget balanceKpis "pasivo_no_corriente" year
  let patrimonioNeto := kget balanceKpis "patrimonio_neto" year
  let existencias := kget balanceKpis "existencias" year
  let efectivo := kget balanceKpis "efectivo" year
  let resultadoNeto := kget pygKpis "resultado_neto" year
  let ingresos := kget pygKpis "ingresos" year
  let pasivoTotal := pasivoCorriente + pasivoNoCorriente
  let fondoManiobra := activoCorriente - pasivoCorriente
  [ ("ratio_liquidez", if 0 < pasivoCorriente then activoCorriente / pasivoCorriente else 0)
  , ("ratio_acid_test",
      if 0 < pasivoCorriente then (activoCorriente - existencias) / pasivoCorriente else 0)
  , ("ratio_tesoreria", if 0 < pasivoCorriente then efectivo / pasivoCorriente else 0)
  , ("ratio_endeudamiento", if 0 < activoTotal then pasivoTotal / activoTotal else 0)
  , ("ratio_autonomia", if 0 < activoTotal then patrimonioNeto / activoTotal else 0)
  , ("ratio_apalancamiento", if 0 < patrimonioNeto then pasivoTotal / patrimonioNeto else 0)
  , ("roe", if 0 < patrimonioNeto then resultadoNeto / patrimonioNeto * 100 else 0)
  , ("roa", if 0 < activoTotal then resultadoNeto / activoTotal * 100 else 0)
  , ("rotacion_activos", if 0 < activoTotal then ingresos / activoTotal else 0)
  , ("margen_neto", if 0 < ingresos then resultadoNeto / ingresos * 100 else 0)
  , ("ratio_solvencia", if 0 < pasivoTotal then activoTotal / pasivoTotal else 0)
  , ("fondo_maniobra", fondoManiobra)
  , ("capital_circulante_ratio", if 0 < activoTotal then fondoManiobra / activoTotal else 0) ]

/-- `calculate_financial_ratios(balance_kpis, pyg_kpis, years)`. -/
def calculateFinancialRatios (balanceKpis pygKpis : List (String × List (String × ℚ)))
    (years : List String) : List (String × List (String × ℚ)) :=
  years.map (fun y => (y, yearRatios balanceKpis pygKpis y))

/-! ## Statement vocabulary -/

/-- A parent row of the servicios bounded section: a non-empty label matching
the parent pattern. -/
abbrev isParentRow (r : Row) : Prop :=
  rowConcepto r ≠ "" ∧ serviciosParentMatch (rowConcepto r) = true

/-- A stop row: non-empty, not a parent row, matching the stop pattern. -/
abbrev isStopRow (r : Row) : Prop :=
  rowConcepto r ≠ "" ∧ serviciosParentMatch (rowConcepto r) = false ∧
    serviciosStopMatch (rowConcepto r) = true

/-- An item row: non-empty, neither parent nor stop, matching the item
prefix. -/
abbrev isItemRow (r : Row) : Prop :=
  rowConcepto r ≠ "" ∧ serviciosParentMatch (rowConcepto r) = false ∧
    serviciosStopMatch (rowConcepto r) = false ∧ serviciosItemMatch (rowConcepto r) = true

/-- Did `load` return normally? -/
def exceptIsOk (e : Except LoadErr ProcDF) : Bool :=
  match e with
  | .ok _ => true
  | .error _ => false

/-- A four-digit numeric year string. -/
abbrev fourDigitYear (s : String) : Prop :=
  s.toList.length = 4 ∧ ∀ c ∈ s.toList, c.isDigit = true

/-- The search string in the wording of the specification (for comparison
with the source's per-cell scan): "concatenate all non-year cell values
(label-bearing columns) into one search string".  The join convention is the
one the repository itself uses when it concatenates label cells
(`concepto += ' ' + str(...)` in `balance_loader.py`), followed by the same
strip that `match_pattern` performs. -/
def specConcatSearchString (years : List String) (r : Row) : String :=
  pyStrip (String.join ((r.texts.filter (fun tc => !(years.contains tc.1))).map
    (fun tc => " " ++ tc.2)))

/-! ## Concrete inputs used by witnesses and counterexamples -/

/-- A raw cell holding a Python string `t`: its `str()` image is itself and
`pd.to_numeric` fails on the labels used here (NaN, filled to 0 later). -/
def sCell (t : String) : RCell := ⟨t, none, false, true⟩

/-- A raw cell holding the number `q`, with `str()` image `t`. -/
def nCell (q : ℚ) (t : String) : RCell := ⟨t, some q, false, false⟩

/-- A 10-column P&L sheet without any year token (headers or cells). -/
def c3Raw : RawDF :=
  ⟨["A", "B", "C", "D", "E", "F", "G", "H", "I", "J"],
   [[sCell "TOTAL VENTAS", sCell "x", sCell "x", sCell "x", sCell "x", sCell "x",
     nCell 5 "5.0", nCell 6 "6.0", nCell 7 "7.0", nCell 8 "8.0"]]⟩

/-- A P&L sheet with year headers `2024`, `2023` and one revenue row. -/
def c8Raw : RawDF :=
  ⟨["Concepto", "2024", "2023"],
   [[sCell "1. Importe neto de la cifra de negocios",
     nCell 1000000 "1000000.0", nCell 900000 "900000.0"]]⟩

/-- A 3-column sheet with no year tokens. -/
def c9Raw : RawDF := ⟨["A", "B", "C"], [[sCell "x", sCell "y", sCell "z"]]⟩

/-- An 11-column sheet with no year tokens. -/
def c10Raw : RawDF := ⟨["A", "B", "C", "D", "E", "F", "G", "H", "I", "J", "K"], []⟩

/-- A 3-column balance sheet. -/
def c10BalRaw : RawDF := ⟨["A", "B", "C"], []⟩

/-- Balance KPI map with a negative `pasivo_corriente`. -/
def c1Bal : List (String × List (String × ℚ)) :=
  [("activo_corriente", [("2024", 1)]), ("pasivo_corriente", [("2024", -1)])]

/-- Balance KPI map with a positive `pasivo_corriente`. -/
def c1BalW : List (String × List (String × ℚ)) :=
  [("activo_corriente", [("2024", 3)]), ("pasivo_corriente", [("2024", 2)]),
   ("existencias", [("2024", 1)]), ("efectivo", [("2024", 4)])]

/-- The parent row `705 PRESTACIONES DE SERVICIOS` of Scenario E. -/
def servParentRow : Row := ⟨[("Concepto", "705 PRESTACIONES DE SERVICIOS")], [("2024", 300)]⟩

def servItem1 : Row := ⟨[("Concepto", "705.0.0.1 CONSULTORIA")], [("2024", 100)]⟩

def servItem2 : Row := ⟨[("Concepto", "705.0.0.2 FORMACION")], [("2024", 200)]⟩

def servStopRow : Row := ⟨[("Concepto", "2. Variación de existencias")], [("2024", 0)]⟩

def servItem3 : Row := ⟨[("Concepto", "705.0.0.3 OTROS")], [("2024", 50)]⟩

/-- A servicios item row carrying a negative source value. -/
def servNegItem : Row := ⟨[("Concepto", "705.0.0.1 CONSULTORIA")], [("2024", -500)]⟩

/-- An `aprovisionamientos_detalle` item row with a negative source value. -/
def aprovNegRow : Row := ⟨[("Concepto", "602.0.0.1 COMPRAS MERCADERIAS")], [("2024", -300)]⟩

/-- The revenue label split over two text columns: neither cell alone matches
an `ingresos` pattern, their concatenation does. -/
def c6Row : Row := ⟨[("Col1", "cifra de "), ("Concepto", "negocios")], [("2024", 7)]⟩

/-- A row matching no `ingresos` pattern. -/
def c6NoMatch : Row := ⟨[("Concepto", "Gastos varios")], [("2024", 1)]⟩

/-- A row matching the `ventas netas` pattern of `ingresos`. -/
def c6Match : Row := ⟨[("Concepto", "Ventas netas")], [("2024", 9)]⟩

/-- The grid of the sign-convention scenario: `4. Aprovisionamientos`
valued −200000 for 2024. -/
def c4Grid : Grid := [⟨[("Concepto", "4. Aprovisionamientos")], [("2024", -200000)]⟩]

/-! ## Helper lemmas -/

/-- A `{y: f(y) for y in ys}`-style map looks up to `f y` for every
`y ∈ ys`. -/
theorem lookup_map_apply {α : Type} (f : String → α) :
    ∀ (ys : List String) (y : String), y ∈ ys →
      (ys.map (fun x => (x, f x))).lookup y = some (f y) := by
  intro ys
  induction ys with
  | nil => intro y hy; cases hy
  | cons z zs ih =>
    intro y hy
    by_cases hz : z = y
    · subst hz
      simp [List.lookup]
    · rcases List.mem_cons.mp hy with h | h
      · exact absurd h.symm hz
      · simpa [List.lookup, beq_eq_false_iff_ne.mpr (Ne.symm hz)] using ih y h

/-- Membership after a Python-dict assignment. -/
theorem mem_upsert {α : Type} {p : String × α} :
    ∀ {m : List (String × α)} {k : String} {v : α},
      p ∈ upsert m k v → p = (k, v) ∨ p ∈ m := by
  intro m
  induction m with
  | nil =>
    intro k v h
    simpa [upsert] using h
  | cons q rest ih =>
    intro k v h
    rw [upsert] at h
    by_cases hk : q.1 = k
    · rw [if_pos hk] at h
      rcases List.mem_cons.mp h with h | h
      · exact .inl h
      · exact .inr (List.mem_cons_of_mem _ h)
    · rw [if_neg hk] at h
      rcases List.mem_cons.mp h with h | h
      · exact .inr (h ▸ List.mem_cons_self _ _)
      · rcases ih h with h | h
        · exact .inl h
        · exact .inr (List.mem_cons_of_mem _ h)

/-! ## Claim C1 — liquidity ratios and the zero-denominator policy -/

/-- C1, corrected.  The claim said the three liquidity ratios degrade to 0
exactly when `pasivo_corriente == 0`; the code tests `pasivo_corriente > 0`,
so every non-positive denominator (including negative ones) yields 0.  This
theorem states the code's actual behaviour: for every Balance and P&L KPI
map and every year in the year list, the ratio map holds
`activo_corriente / pasivo_corriente`,
`(activo_corriente - existencias) / pasivo_corriente` and
`efectivo / pasivo_corriente` when `pasivo_corriente > 0`, and exactly 0
otherwise (over `ℚ`, never NaN or infinite, and never an exception). -/
theorem C1_liquidity_ratios (bal pyg : List (String × List (String × ℚ)))
    (ys : List String) (y : String) (hy : y ∈ ys) :
    ∃ yr, (calculateFinancialRatios bal pyg ys).lookup y = some yr ∧
      yr.lookup "ratio_liquidez" = some (if 0 < kget bal "pasivo_corriente" y
        then kget bal "activo_corriente" y / kget bal "pasivo_corriente" y else 0) ∧
      yr.lookup "ratio_acid_test" = some (if 0 < kget bal "pasivo_corriente" y
        then (kget bal "activo_corriente" y - kget bal "existencias" y)
          / kget bal "pasivo_corriente" y else 0) ∧
      yr.lookup "ratio_tesoreria" = some (if 0 < kget bal "pasivo_corriente" y
        then kget bal "efectivo" y / kget bal "pasivo_corriente" y else 0) :=
  ⟨yearRatios bal pyg y,
    by simpa [calculateFinancialRatios] using lookup_map_apply (yearRatios bal pyg) ys y hy,
    by simp [yearRatios, List.lookup],
    by simp [yearRatios, List.lookup],
    by simp [yearRatios, List.lookup]⟩

/-- C1 fails as stated: with `pasivo_corriente = -1 ≠ 0` and
`activo_corriente = 1`, the claim's formula demands
`ratio_liquidez = 1 / (-1) ≠ 0`, but the code returns exactly 0. -/
theorem C1_counterexample :
    ((calculateFinancialRatios c1Bal [] ["2024"]).lookup "2024").map
        (fun yr => yr.lookup "ratio_liquidez") = some (some 0) ∧
      kget c1Bal "pasivo_corriente" "2024" ≠ 0 ∧
      kget c1Bal "activo_corriente" "2024" / kget c1Bal "pasivo_corriente" "2024" ≠ 0 := by
  norm_num [calculateFinancialRatios, yearRatios, kget, c1Bal, List.lookup]

/-- Witness for `C1_liquidity_ratios` at a concrete input with
`pasivo_corriente = 2 > 0`. -/
theorem C1_liquidity_ratios_witness :
    ("2024" ∈ ["2024"]) ∧
    (∃ yr, (calculateFinancialRatios c1BalW [] ["2024"]).lookup "2024" = some yr ∧
      yr.lookup "ratio_liquidez" = some (if 0 < kget c1BalW "pasivo_corriente" "2024"
        then kget c1BalW "activo_corriente" "2024" / kget c1BalW "pasivo_corriente" "2024" else 0) ∧
      yr.lookup "ratio_acid_test" = some (if 0 < kget c1BalW "pasivo_corriente" "2024"
        then (kget c1BalW "activo_corriente" "2024" - kget c1BalW "existencias" "2024")
          / kget c1BalW "pasivo_corriente" "2024" else 0) ∧
      yr.lookup "ratio_tesoreria" = some (if 0 < kget c1BalW "pasivo_corriente" "2024"
        then kget c1BalW "efectivo" "2024" / kget c1BalW "pasivo_corriente" "2024" else 0)) :=
  ⟨by decide, C1_liquidity_ratios c1BalW [] ["2024"] "2024" (by decide)⟩

/-! ## Claim C2 — absolute magnitudes in the detail maps -/

/-- Every entry of an `absValues` map is non-negative. -/
theorem mem_absValues {ys : List String} {r : Row} {q : String × ℚ}
    (h : q ∈ absValues ys r) : 0 ≤ q.2 := by
  rcases List.mem_map.mp h with ⟨y, _, rfl⟩
  exact abs_nonneg _

/-- A fold whose step either keeps the map or upserts an `absValues` map
preserves non-negativity of all stored values. -/
theorem foldl_abs_nonneg (ys : List String)
    (step : List (String × List (String × ℚ)) → Row → List (String × List (String × ℚ)))
    (hstep : ∀ m r, step m r = m ∨ ∃ k, step m r = upsert m k (absValues ys r)) :
    ∀ (l : List Row) (acc : List (String × List (String × ℚ))),
      (∀ p ∈ acc, ∀ q ∈ p.2, 0 ≤ q.2) →
      ∀ p ∈ l.foldl step acc, ∀ q ∈ p.2, 0 ≤ q.2 := by
  intro l
  induction l with
  | nil => intro acc hacc; simpa using hacc
  | cons r rest ih =>
    intro acc hacc
    rw [List.foldl_cons]
    apply ih
    rcases hstep acc r with h | ⟨k, h⟩
    · rw [h]; exact hacc
    · rw [h]
      intro p hp
      rcases mem_upsert hp with rfl | hp'
      · intro q hq
        exact mem_absValues hq
      · exact hacc p hp'

/-- The `_extract_aprovisionamientos` step keeps the map or upserts an
absolute-value map. -/
theorem aprovStep_shape (ys : List String) (m : List (String × List (String × ℚ))) (r : Row) :
    aprovStep ys m r = m ∨ ∃ k, aprovStep ys m r = upsert m k (absValues ys r) := by
  unfold aprovStep
  by_cases h1 : rowConcepto r = ""
  · left; simp [h1]
  · cases h2 : aprovItemMatch (rowConcepto r)
    · left; simp [h1, h2]
    · right; exact ⟨deriveName stripAprovPrefix (rowConcepto r), by simp [h1, h2]⟩

/-- The `_extract_personal` / `_extract_otros_gastos` step keeps the map or
upserts an absolute-value map. -/
theorem categoriesStep_shape (cats : List (Pat × String)) (ys : List String)
    (m : List (String × List (String × ℚ))) (r : Row) :
    categoriesStep cats ys m r = m ∨
      ∃ k, categoriesStep cats ys m r = upsert m k (absValues ys r) := by
  unfold categoriesStep
  by_cases h1 : rowConcepto r = ""
  · left; simp [h1]
  · cases h2 : cats.find? (fun pc => pc.1 (pyLower (rowConcepto r))) with
    | none => left; simp [h1, h2]
    | some pc => right; exact ⟨pc.2, by simp [h1, h2]⟩

/-- C2, corrected.  The claim said all four detail maps store absolute
magnitudes.  That holds for `aprovisionamientos_detalle`, `personal_detalle`
and `otros_gastos_detalle` (this theorem), but not for `servicios`, whose
extractor stores `row.get(year, 0)` without `abs`
(see `C2_counterexample`). -/
theorem C2_detail_abs (g : Grid) (ys : List String) :
    (∀ p ∈ extractAprovisionamientos g ys, ∀ q ∈ p.2, 0 ≤ q.2) ∧
    (∀ p ∈ extractPersonal g ys, ∀ q ∈ p.2, 0 ≤ q.2) ∧
    (∀ p ∈ extractOtrosGastos g ys, ∀ q ∈ p.2, 0 ≤ q.2) :=
  ⟨foldl_abs_nonneg ys _ (aprovStep_shape ys) g [] (by simp),
   foldl_abs_nonneg ys _ (categoriesStep_shape personalCategories ys) g [] (by simp),
   foldl_abs_nonneg ys _ (categoriesStep_shape otrosGastosCategories ys) g [] (by simp)⟩

/-- C2 fails as stated for the `servicios` detail map: a captured item row
with source value −500 is stored as −500, a negative magnitude. -/
theorem C2_counterexample :
    (extractServicios [servParentRow, servNegItem] ["2024"]).lookup "CONSULTORIA"
      = some [("2024", -500)] ∧ ((-500 : ℚ) < 0) := by
  decide

/-- Witness for `C2_detail_abs`: the −300 `602.0.0.1` row is stored as the
non-negative 300. -/
theorem C2_detail_abs_witness :
    (("COMPRAS MERCADERIAS", [("2024", (300 : ℚ))]) ∈
        extractAprovisionamientos [aprovNegRow] ["2024"]) ∧
      (("2024", (300 : ℚ)) ∈ [("2024", (300 : ℚ))]) ∧ 0 ≤ (300 : ℚ) :=
  ⟨by decide, by decide,
    (C2_detail_abs [aprovNegRow] ["2024"]).1 ("COMPRAS MERCADERIAS", [("2024", (300 : ℚ))])
      (by decide) ("2024", (300 : ℚ)) (by decide)⟩

/-! ## Claims C4 and C5 — `extract_all` bookkeeping -/

/-- A name not in the registry appears in neither output of `extract_all`. -/
theorem extractAll_not_mem (g : Grid) (ys : List String) (name : String) :
    ∀ reg, name ∉ reg.map Prod.fst →
      (extractAll g ys reg).1.lookup name = none ∧ name ∉ (extractAll g ys reg).2 := by
  intro reg
  induction reg with
  | nil => intro _; exact ⟨rfl, by simp [extractAll]⟩
  | cons nc rest ih =>
    intro h
    rw [List.map_cons] at h
    simp only [List.mem_cons, not_or] at h
    obtain ⟨h1, h2⟩ := h
    obtain ⟨n, c⟩ := nc
    obtain ⟨ihl, ihm⟩ := ih h2
    rw [extractAll]
    cases hf : findKpi g ys c with
    | some m =>
      refine ⟨?_, ihm⟩
      simpa [List.lookup, beq_eq_false_iff_ne.mpr h1] using ihl
    | none =>
      by_cases hr : c.required
      · simp only [hr, if_true]
        exact ⟨ihl, by simp only [List.mem_cons, not_or]; exact ⟨h1, ihm⟩⟩
      · simp only [hr, if_false]
        refine ⟨?_, ihm⟩
        simpa [List.lookup, beq_eq_false_iff_ne.mpr h1] using ihl

/-- The full case analysis of `extract_all` for one registry entry, over any
registry with distinct concept names: a found concept maps to its row map, a
missing required concept is absent and listed missing, a missing optional
concept maps to the default map. -/
theorem extractAll_cases (g : Grid) (ys : List String) (name : String) (cfg : KpiConfig) :
    ∀ reg, (reg.map Prod.fst).Nodup → (name, cfg) ∈ reg →
      (∀ m, findKpi g ys cfg = some m → (extractAll g ys reg).1.lookup name = some m) ∧
      (findKpi g ys cfg = none → cfg.required = true →
        (extractAll g ys reg).1.lookup name = none ∧ name ∈ (extractAll g ys reg).2) ∧
      (findKpi g ys cfg = none → cfg.required = false →
        (extractAll g ys reg).1.lookup name = some (ys.map fun y => (y, cfg.default))) := by
  intro reg
  induction reg with
  | nil => intro _ hm; cases hm
  | cons nc rest ih =>
    intro hnd hm
    rw [List.map_cons, List.nodup_cons] at hnd
    obtain ⟨hn1, hn2⟩ := hnd
    rcases List.mem_cons.mp hm with he | hm'
    · subst he
      obtain ⟨hl0, hm0⟩ := extractAll_not_mem g ys name rest hn1
      rw [extractAll]
      refine ⟨?_, ?_, ?_⟩
      · intro m hf
        rw [hf]
        simp [List.lookup]
      · intro hf hr
        rw [hf]
        simp only [hr, if_true]
        exact ⟨hl0, List.mem_cons_self _ _⟩
      · intro hf hr
        rw [hf]
        simp only [hr, if_false]
        simp [List.lookup]
    · have hne : nc.1 ≠ name := by
        intro he
        exact hn1 (he ▸ List.mem_map_of_mem Prod.fst hm')
      obtain ⟨ih1, ih2, ih3⟩ := ih hn2 hm'
      obtain ⟨n, c⟩ := nc
      rw [extractAll]
      cases hf : findKpi g ys c with
      | some m0 =>
        refine ⟨?_, ?_, ?_⟩
        · intro m hfm
          simpa [List.lookup, beq_eq_false_iff_ne.mpr (Ne.symm hne)] using ih1 m hfm
        · intro hfn hr
          refine ⟨?_, ?_⟩
          · simpa [List.lookup, beq_eq_false_iff_ne.mpr (Ne.symm hne)] using (ih2 hfn hr).1
          · exact (ih2 hfn hr).2
        · intro hfn hr
          simpa [List.lookup, beq_eq_false_iff_ne.mpr (Ne.symm hne)] using ih3 hfn hr
      | none =>
        by_cases hr : c.required
        · simp only [hr, if_true]
          refine ⟨?_, ?_, ?_⟩
          · intro m hfm
            exact ih1 m hfm
          · intro hfn hreq
            exact ⟨(ih2 hfn hreq).1, List.mem_cons_of_mem _ (ih2 hfn hreq).2⟩
          · intro hfn hreq
            exact ih3 hfn hreq
        · simp only [hr, if_false]
          refine ⟨?_, ?_, ?_⟩
          · intro m hfm
            simpa [List.lookup, beq_eq_false_iff_ne.mpr (Ne.symm hne)] using ih1 m hfm
          · intro hfn hreq
            refine ⟨?_, (ih2 hfn hreq).2⟩
            simpa [List.lookup, beq_eq_false_iff_ne.mpr (Ne.symm hne)] using (ih2 hfn hreq).1
          · intro hfn hreq
            simpa [List.lookup, beq_eq_false_iff_ne.mpr (Ne.symm hne)] using ih3 hfn hreq

/-- C5, confirmed.  For every grid and every registry concept with no
matching row: if required, the key is absent from the KPI map and the name is
in the missing list; if optional, the map holds `{year: default}` for every
year.  Extraction is a total function, so it continues (never raises) in
either case. -/
theorem C5_missing_concepts (g : Grid) (ys : List String) (name : String) (cfg : KpiConfig)
    (hmem : (name, cfg) ∈ KPI_MAPPINGS) (hnone : findKpi g ys cfg = none) :
    (cfg.required = true →
      (extractAll g ys KPI_MAPPINGS).1.lookup name = none ∧
        name ∈ (extractAll g ys KPI_MAPPINGS).2) ∧
    (cfg.required = false →
      (extractAll g ys KPI_MAPPINGS).1.lookup name = some (ys.map fun y => (y, cfg.default))) := by
  have hnd : (KPI_MAPPINGS.map Prod.fst).Nodup := by decide
  obtain ⟨h1, h2, h3⟩ := extractAll_cases g ys name cfg KPI_MAPPINGS hnd hmem
  exact ⟨h2 hnone, h3 hnone⟩

/-- Witness for `C5_missing_concepts`: on the empty grid the required
concept `ingresos` is absent from the KPI map and reported missing. -/
theorem C5_missing_concepts_witness :
    (("ingresos", ingresosCfg) ∈ KPI_MAPPINGS) ∧
    findKpi ([] : Grid) ["2024"] ingresosCfg = none ∧
    ingresosCfg.required = true ∧
    ((extractAll ([] : Grid) ["2024"] KPI_MAPPINGS).1.lookup "ingresos" = none ∧
      "ingresos" ∈ (extractAll ([] : Grid) ["2024"] KPI_MAPPINGS).2) :=
  ⟨List.mem_cons_self _ _, rfl, rfl,
    (C5_missing_concepts [] ["2024"] "ingresos" ingresosCfg (List.mem_cons_self _ _) rfl).1 rfl⟩

/-- C4, confirmed.  For every grid and every registry concept with
`sign = -1`, every year value stored for that concept by `extract_all` is
non-negative, whatever the sign of the source cell. -/
theorem C4_sign_convention (g : Grid) (ys : List String) (name : String) (cfg : KpiConfig)
    (m : List (String × ℚ)) (y : String) (v : ℚ)
    (hmem : (name, cfg) ∈ KPI_MAPPINGS) (hsign : cfg.sign = -1)
    (hl : (extractAll g ys KPI_MAPPINGS).1.lookup name = some m) (hv : (y, v) ∈ m) :
    0 ≤ v := by
  have hnd : (KPI_MAPPINGS.map Prod.fst).Nodup := by decide
  obtain ⟨h1, h2, h3⟩ := extractAll_cases g ys name cfg KPI_MAPPINGS hnd hmem
  cases hf : findKpi g ys cfg with
  | some m0 =>
    rw [h1 m0 hf] at hl
    injection hl with hl
    subst hl
    unfold findKpi at hf
    cases hfr : g.find? (rowMatches ys cfg.patterns) with
    | none => rw [hfr] at hf; cases hf
    | some r =>
      rw [hfr] at hf
      injection hf with hf
      rw [← hf] at hv
      unfold rowKpi at hv
      rcases List.mem_map.mp hv with ⟨y', _, heq⟩
      injection heq with heq1 heq2
      rw [← heq2]
      cases hlv : r.nums.lookup y' with
      | some v0 => simp [kpiValue, hlv, hsign]
      | none => simp [kpiValue, hlv]
  | none =>
    cases hr : cfg.required with
    | true =>
      rw [(h2 hf hr).1] at hl
      cases hl
    | false =>
      rw [h3 hf hr] at hl
      injection hl with hl
      subst hl
      rcases List.mem_map.mp hv with ⟨y', _, heq⟩
      injection heq with heq1 heq2
      rw [← heq2]
      have hdef : ∀ nc ∈ KPI_MAPPINGS, (0 : ℚ) ≤ nc.2.default := by decide
      exact hdef (name, cfg) hmem

/-- Witness for `C4_sign_convention`: the row `4. Aprovisionamientos` valued
−200000 for 2024 is stored as `aprovisionamientos[2024] = 200000 ≥ 0`. -/
theorem C4_sign_convention_witness :
    (("aprovisionamientos", aprovisionamientosCfg) ∈ KPI_MAPPINGS) ∧
    aprovisionamientosCfg.sign = -1 ∧
    (extractAll c4Grid ["2024"] KPI_MAPPINGS).1.lookup "aprovisionamientos"
      = some [("2024", 200000)] ∧
    (("2024", (200000 : ℚ)) ∈ [("2024", (200000 : ℚ))]) ∧ 0 ≤ (200000 : ℚ) :=
  ⟨List.mem_cons_of_mem _ (List.mem_cons_self _ _), rfl, by decide, by decide,
    C4_sign_convention c4Grid ["2024"] "aprovisionamientos" aprovisionamientosCfg
      [("2024", 200000)] "2024" 200000
      (List.mem_cons_of_mem _ (List.mem_cons_self _ _)) rfl (by decide) (by decide)⟩

/-! ## Claim C6 — which row populates a concept -/

/-- C6, corrected.  `_find_kpi` tests each non-year cell separately, not a
concatenation of the row's cells: the row whose values populate a concept is
the first row in grid order in which some single non-empty non-year cell
matches one of the concept's patterns (case-insensitively); once such a row
exists, later rows are never considered. -/
theorem C6_first_match (g : Grid) (ys : List String) (cfg : KpiConfig) :
    ∀ (i : ℕ) (r : Row), g[i]? = some r →
      rowMatches ys cfg.patterns r = true →
      (∀ (j : ℕ) (r' : Row), j < i → g[j]? = some r' →
        rowMatches ys cfg.patterns r' = false) →
      findKpi g ys cfg = some (rowKpi ys cfg.sign r) := by
  induction g with
  | nil => intro i r h _ _; cases h
  | cons a t ih =>
    intro i r hget hmatch hprev
    cases i with
    | zero =>
      rw [List.getElem?_cons_zero] at hget
      injection hget with hget
      subst hget
      unfold findKpi
      rw [List.find?_cons_of_pos _ hmatch]
    | succ n =>
      have h0 : rowMatches ys cfg.patterns a = false :=
        hprev 0 a (Nat.succ_pos n) (by simp)
      rw [List.getElem?_cons_succ] at hget
      have := ih n r hget hmatch
        (fun j r' hj hg => hprev (j + 1) r' (Nat.succ_lt_succ hj) (by simpa using hg))
      unfold findKpi at this ⊢
      rw [List.find?_cons_of_neg _ (by simp [h0])]
      exact this

/-- C6 fails as stated: with the revenue label split over two cells, the
concatenated search string matches an `ingresos` pattern, yet the code (which
matches per cell) finds no row, so `ingresos` is absent and reported
missing — the claim would have row 0 populate it. -/
theorem C6_counterexample :
    matchPattern (specConcatSearchString ["2024"] c6Row) ingresosCfg.patterns = true ∧
    rowMatches ["2024"] ingresosCfg.patterns c6Row = false ∧
    (extractAll [c6Row] ["2024"] KPI_MAPPINGS).1.lookup "ingresos" = none ∧
    "ingresos" ∈ (extractAll [c6Row] ["2024"] KPI_MAPPINGS).2 := by
  decide

/-- Witness for `C6_first_match`: row 0 matches nothing, row 1 matches
`ventas netas`, and `_find_kpi` returns row 1's year map. -/
theorem C6_first_match_witness :
    (([c6NoMatch, c6Match] : Grid)[1]? = some c6Match) ∧
    rowMatches ["2024"] ingresosCfg.patterns c6Match = true ∧
    findKpi [c6NoMatch, c6Match] ["2024"] ingresosCfg
      = some (rowKpi ["2024"] ingresosCfg.sign c6Match) :=
  ⟨rfl, by decide,
    C6_first_match [c6NoMatch, c6Match] ["2024"] ingresosCfg 1 c6Match rfl (by decide)
      (fun j r' hj hg => by
        interval_cases j
        simp only [List.getElem?_cons_zero, Option.some.injEq] at hg
        subst hg
        decide)⟩

/-! ## Claim C7 — the servicios bounded-section window -/

/-- With the window open, a run of item rows captures each row under its
derived name, and the window stays open. -/
theorem serviciosStep_items (ys : List String) :
    ∀ (items : List Row) (acc : List (String × List (String × ℚ))),
      (∀ r ∈ items, isItemRow r) →
      items.foldl (serviciosStep ys) (true, acc) =
        (true, items.foldl
          (fun m r => upsert m (deriveName stripServPrefix (rowConcepto r)) (capturedValue ys r))
          acc) := by
  intro items
  induction items with
  | nil => intro acc _; rfl
  | cons r rest ih =>
    intro acc hall
    obtain ⟨hc, hp, hs, hi⟩ := hall r (List.mem_cons_self _ _)
    have hstep : serviciosStep ys (true, acc) r =
        (true, upsert acc (deriveName stripServPrefix (rowConcepto r)) (capturedValue ys r)) := by
      unfold serviciosStep
      simp [hc, hp, hs, hi]
    rw [List.foldl_cons, List.foldl_cons, hstep]
    exact ih _ (fun r' h => hall r' (List.mem_cons_of_mem _ h))

/-- A stop row closes the window (from either state) and captures nothing. -/
theorem serviciosStep_stop (ys : List String) (b : Bool)
    (acc : List (String × List (String × ℚ))) (s : Row) (hs : isStopRow s) :
    serviciosStep ys (b, acc) s = (false, acc) := by
  obtain ⟨hc, hp, hst⟩ := hs
  unfold serviciosStep
  cases b <;> simp [hc, hp, hst]

/-- With the window closed, rows that are not parent rows change nothing —
in particular rows matching the item pattern are not captured. -/
theorem serviciosStep_closed (ys : List String) :
    ∀ (l : List Row) (acc : List (String × List (String × ℚ))),
      (∀ r ∈ l, ¬ isParentRow r) →
      l.foldl (serviciosStep ys) (false, acc) = (false, acc) := by
  intro l
  induction l with
  | nil => intro acc _; rfl
  | cons r rest ih =>
    intro acc hall
    have hr := hall r (List.mem_cons_self _ _)
    have hstep : serviciosStep ys (false, acc) r = (false, acc) := by
      unfold serviciosStep
      by_cases hc : rowConcepto r = ""
      · simp [hc]
      · have hp : serviciosParentMatch (rowConcepto r) = false := by
          rcases Bool.eq_false_or_eq_true (serviciosParentMatch (rowConcepto r)) with h | h
          · exact absurd ⟨hc, h⟩ hr
          · exact h
        simp [hc, hp]
    rw [List.foldl_cons, hstep]
    exact ih _ (fun r' h => hall r' (List.mem_cons_of_mem _ h))

/-- C7, confirmed.  In `_extract_servicios`, a parent row opens the window
without being captured, item rows inside the window are captured under their
derived names (`upsert` = last capture for a name wins), a stop row closes
the window without being captured, and — as long as no later row reopens the
window — nothing after the stop row is captured, even rows matching the item
pattern. -/
theorem C7_bounded_section (ys : List String) (p s : Row) (items1 items2 : List Row)
    (hp : isParentRow p) (hs : isStopRow s)
    (h1 : ∀ r ∈ items1, isItemRow r) (h2 : ∀ r ∈ items2, ¬ isParentRow r) :
    extractServicios (p :: (items1 ++ s :: items2)) ys =
      items1.foldl
        (fun m r => upsert m (deriveName stripServPrefix (rowConcepto r)) (capturedValue ys r))
        [] := by
  obtain ⟨hpc, hpm⟩ := hp
  unfold extractServicios
  have hstep : serviciosStep ys (false, []) p = (true, []) := by
    unfold serviciosStep
    simp [hpc, hpm]
  rw [List.foldl_cons, hstep, List.foldl_append, serviciosStep_items ys items1 [] h1,
    List.foldl_cons, serviciosStep_stop ys _ _ s hs, serviciosStep_closed ys items2 _ h2]

/-- Witness for `C7_bounded_section`: Scenario E — parent row, two item rows,
a stop row, a third item row; only the first two items are captured. -/
theorem C7_bounded_section_witness :
    (isParentRow servParentRow ∧ isStopRow servStopRow ∧
      (∀ r ∈ [servItem1, servItem2], isItemRow r) ∧
      (∀ r ∈ [servItem3], ¬ isParentRow r)) ∧
    extractServicios [servParentRow, servItem1, servItem2, servStopRow, servItem3] ["2024"]
      = [("CONSULTORIA", [("2024", 100)]), ("FORMACION", [("2024", 200)])] :=
  ⟨⟨by decide, by decide, by decide, by decide⟩,
    (C7_bounded_section ["2024"] servParentRow servStopRow [servItem1, servItem2] [servItem3]
      (by decide) (by decide) (by decide) (by decide)).trans (by decide)⟩

/-! ## Loader claims — detection lemmas -/

/-- Every detected header year column carries a year token. -/
theorem headerYearCols_tokens (raw : RawDF) :
    ∀ iy ∈ headerYearCols raw, isYearToken iy.2 = true := by
  intro iy h
  rcases List.mem_filterMap.mp h with ⟨ic, _, hf⟩
  split at hf
  next ht =>
    injection hf with hf
    rw [← hf]
    exact ht
  next => cases hf

/-- Every year column detected by the first-five-rows scan carries a year
token. -/
theorem rowScanYearCols_tokens (raw : RawDF) :
    ∀ iy ∈ rowScanYearCols raw, isYearToken iy.2 = true := by
  intro iy h
  unfold rowScanYearCols at h
  rcases List.mem_flatten.mp h with ⟨l, hl, hmem⟩
  rcases List.mem_map.mp hl with ⟨row, _, rfl⟩
  rcases List.mem_filterMap.mp hmem with ⟨jc, _, hf⟩
  split at hf
  next ht =>
    injection hf with hf
    rw [← hf]
    exact ht
  next => cases hf

theorem detectedYearCols_tokens (raw : RawDF) :
    ∀ iy ∈ detectedYearCols raw, isYearToken iy.2 = true := by
  intro iy h
  unfold detectedYearCols at h
  split at h
  · exact rowScanYearCols_tokens raw iy h
  · exact headerYearCols_tokens raw iy h

/-- No year token among the headers: header detection is empty. -/
theorem headerYearCols_nil (raw : RawDF)
    (h : ∀ c ∈ raw.cols, isYearToken (pyStrip c) = false) : headerYearCols raw = [] := by
  unfold headerYearCols
  apply List.filterMap_eq_nil_iff.mpr
  intro ic hic
  have hc : ic.2 ∈ raw.cols := by
    have := List.mem_map_of_mem Prod.snd hic
    rwa [List.enum_map_snd] at this
  simp [h ic.2 hc]

/-- No year token among the first five rows: the row scan is empty. -/
theorem rowScanYearCols_nil (raw : RawDF)
    (h : ∀ row ∈ raw.rows.take 5, ∀ cell ∈ row, isYearToken (pyStrip cell.txt) = false) :
    rowScanYearCols raw = [] := by
  unfold rowScanYearCols
  apply List.flatten_eq_nil_iff.mpr
  intro l hl
  rcases List.mem_map.mp hl with ⟨row, hrow, rfl⟩
  apply List.filterMap_eq_nil_iff.mpr
  intro jc hjc
  have hc : jc.2 ∈ row := by
    have := List.mem_map_of_mem Prod.snd hjc
    rwa [List.enum_map_snd] at this
  simp [h row hrow jc.2 hc]

/-- If column detection succeeded, `self.years` is what `get_years()`
returns afterwards, whether or not validation later fails. -/
theorem loadPyG_years_of_detect (raw : RawDF) (df : ProcDF) (ys : List String)
    (h : detectAndRename raw = .ok (df, ys)) : (loadPyG raw).2 = ys := by
  unfold loadPyG
  rw [h]
  cases hv : validateStructure (cleanData df ys) ys <;> simp [hv]

/-- A `load` that returns normally passed through a successful column
detection, and `get_years()` returns the years it assigned. -/
theorem loadPyG_ok_detect (raw : RawDF) (h : exceptIsOk (loadPyG raw).1 = true) :
    ∃ df ys, detectAndRename raw = .ok (df, ys) ∧ (loadPyG raw).2 = ys := by
  cases hd : detectAndRename raw with
  | error e =>
    unfold loadPyG at h
    rw [hd] at h
    simp [exceptIsOk] at h
  | ok p =>
    obtain ⟨df, ys⟩ := p
    exact ⟨df, ys, rfl, loadPyG_years_of_detect raw df ys hd⟩

theorem detectedYearCols_nil (raw : RawDF)
    (h1 : ∀ c ∈ raw.cols, isYearToken (pyStrip c) = false)
    (h2 : ∀ row ∈ raw.rows.take 5, ∀ cell ∈ row, isYearToken (pyStrip cell.txt) = false) :
    detectedYearCols raw = [] := by
  unfold detectedYearCols
  rw [headerYearCols_nil raw h1, rowScanYearCols_nil raw h2]
  rfl

/-! ## Claim C9 — structure error for narrow sheets without years -/

/-- C9, confirmed.  A P&L sheet with no year token in the headers nor in the
first five data rows and fewer than 10 columns makes `load` raise a
`ValidationError` (the structure failure, a distinct class from the
`DataLoadError` read failure and from generic exceptions) rather than
return an empty result. -/
theorem C9_validation_error (raw : RawDF)
    (h1 : ∀ c ∈ raw.cols, isYearToken (pyStrip c) = false)
    (h2 : ∀ row ∈ raw.rows.take 5, ∀ cell ∈ row, isYearToken (pyStrip cell.txt) = false)
    (hlen : raw.cols.length < 10) :
    (loadPyG raw).1 = .error .validation := by
  have hd : detectAndRename raw = .error .validation := by
    unfold detectAndRename
    rw [detectedYearCols_nil raw h1 h2]
    exact if_neg (by omega)
  unfold loadPyG
  rw [hd]

/-- Witness for `C9_validation_error` on a concrete 3-column sheet. -/
theorem C9_validation_error_witness :
    (∀ c ∈ c9Raw.cols, isYearToken (pyStrip c) = false) ∧
    (∀ row ∈ c9Raw.rows.take 5, ∀ cell ∈ row, isYearToken (pyStrip cell.txt) = false) ∧
    c9Raw.cols.length < 10 ∧
    (loadPyG c9Raw).1 = .error .validation :=
  ⟨by decide, by decide, by decide,
    C9_validation_error c9Raw (by decide) (by decide) (by decide)⟩

/-! ## Claim C10 — the 10-name column assignment outside 10 columns -/

/-- C10, confirmed.  The positional fallback assigns exactly ten column
names: a P&L sheet with more than ten columns and no detectable year token
makes `load` fail with the generic pandas length-mismatch `ValueError`, not a
`ValidationError`; and `BalanceLoader.load` assigns the ten names
unconditionally, so it raises the same generic error for any sheet whose
first sheet does not have exactly ten columns. -/
theorem C10_length_mismatch :
    (∀ raw : RawDF, (∀ c ∈ raw.cols, isYearToken (pyStrip c) = false) →
      (∀ row ∈ raw.rows.take 5, ∀ cell ∈ row, isYearToken (pyStrip cell.txt) = false) →
      10 < raw.cols.length → (loadPyG raw).1 = .error .generic) ∧
    (∀ raw : RawDF, raw.cols.length ≠ 10 → balanceLoad raw = .error .generic) := by
  constructor
  · intro raw h1 h2 hlen
    have hd : detectAndRename raw = .error .generic := by
      unfold detectAndRename
      rw [detectedYearCols_nil raw h1 h2]
      rw [if_pos (by omega)]
      exact if_neg (by omega)
    unfold loadPyG
    rw [hd]
  · intro raw hlen
    unfold balanceLoad
    exact if_neg hlen

/-- Witness for `C10_length_mismatch` on an 11-column P&L sheet and a
3-column balance sheet. -/
theorem C10_length_mismatch_witness :
    ((∀ c ∈ c10Raw.cols, isYearToken (pyStrip c) = false) ∧
      (∀ row ∈ c10Raw.rows.take 5, ∀ cell ∈ row, isYearToken (pyStrip cell.txt) = false) ∧
      10 < c10Raw.cols.length ∧ (loadPyG c10Raw).1 = .error .generic) ∧
    (c10BalRaw.cols.length ≠ 10 ∧ balanceLoad c10BalRaw = .error .generic) :=
  ⟨⟨by decide, by decide, by decide,
      C10_length_mismatch.1 c10Raw (by decide) (by decide) (by decide)⟩,
    ⟨by decide, C10_length_mismatch.2 c10BalRaw (by decide)⟩⟩

/-! ## Claim C3 — the positional fallback layout -/

/-- C3, corrected.  With no detectable year token and exactly ten columns
(an 11-or-more-column sheet raises instead, see `C10_length_mismatch`), the
fallback renames the columns to
`['Col1', 'Concepto', 'Col3', 'Col4', 'Col5', 'Col6', '2025', '2024',
'2023', '2022']`: the year columns 2025, 2024, 2023, 2022 sit at zero-based
indices 6, 7, 8, 9 — not 7, 8, 9, 10 as claimed — each carrying the data of
the raw column at the same index, and `get_years()` observes
`['2025', '2024', '2023', '2022']`. -/
theorem C3_positional_fallback (raw : RawDF)
    (h1 : ∀ c ∈ raw.cols, isYearToken (pyStrip c) = false)
    (h2 : ∀ row ∈ raw.rows.take 5, ∀ cell ∈ row, isYearToken (pyStrip cell.txt) = false)
    (hlen : raw.cols.length = 10) :
    ∃ df : ProcDF, detectAndRename raw = .ok (df, fallbackYears) ∧
      df.cols.map Prod.fst = fallbackCols ∧
      df.cols.map Prod.snd = (List.range 10).map (colVals raw) ∧
      (loadPyG raw).2 = fallbackYears := by
  have hd : detectAndRename raw =
      .ok (⟨fallbackCols.enum.map (fun inm => (inm.2, colVals raw inm.1)), raw.rows.length⟩,
        fallbackYears) := by
    unfold detectAndRename
    rw [detectedYearCols_nil raw h1 h2]
    rw [if_pos (by omega)]
    exact if_pos hlen
  refine ⟨_, hd, ?_, ?_, ?_⟩
  · rw [List.map_map]
    exact List.enum_map_snd fallbackCols
  · rw [List.map_map,
      show List.range 10 = fallbackCols.enum.map Prod.fst from (List.enum_map_fst fallbackCols).symm,
      List.map_map]
    rfl
  · exact loadPyG_years_of_detect raw _ _ hd

/-- The claim's index assignment fails at a concrete 10-column sheet: the
renamed columns put `2025` at zero-based index 6 and `2024` at index 7, and
there is no index 10 at all, so the columns at indices 7–10 are not
2025,…,2022. -/
theorem C3_counterexample :
    ((detectAndRename c3Raw).toOption.map (fun p => p.1.cols.map Prod.fst)
        = some fallbackCols) ∧
      fallbackCols[6]? = some "2025" ∧ fallbackCols[7]? = some "2024" ∧
      fallbackCols[7]? ≠ some "2025" ∧ fallbackCols[10]? = none := by
  decide

/-- Witness for `C3_positional_fallback` at the same 10-column sheet. -/
theorem C3_positional_fallback_witness :
    ((∀ c ∈ c3Raw.cols, isYearToken (pyStrip c) = false) ∧
      (∀ row ∈ c3Raw.rows.take 5, ∀ cell ∈ row, isYearToken (pyStrip cell.txt) = false) ∧
      c3Raw.cols.length = 10) ∧
    (∃ df : ProcDF, detectAndRename c3Raw = .ok (df, fallbackYears) ∧
      df.cols.map Prod.fst = fallbackCols ∧
      df.cols.map Prod.snd = (List.range 10).map (colVals c3Raw) ∧
      (loadPyG c3Raw).2 = fallbackYears) :=
  ⟨⟨by decide, by decide, by decide⟩,
    C3_positional_fallback c3Raw (by decide) (by decide) (by decide)⟩

/-! ## Claim C8 — shape of `get_years()` after a successful load -/

/-- A year token is a four-digit numeric string. -/
theorem fourDigit_of_yearToken (s : String) (h : isYearToken s = true) : fourDigitYear s := by
  unfold isYearToken at h
  split at h
  next a b c d heq =>
    rw [Bool.and_eq_true, Bool.and_eq_true, Bool.or_eq_true] at h
    obtain ⟨⟨h1, hc⟩, hd⟩ := h
    have hab : a.isDigit = true ∧ b.isDigit = true := by
      rcases h1 with h1 | h1 <;>
        rw [Bool.and_eq_true] at h1 <;>
        obtain ⟨ha, hb⟩ := h1 <;>
        rw [of_decide_eq_true ha, of_decide_eq_true hb] <;>
        exact ⟨rfl, rfl⟩
    obtain ⟨ha, hb⟩ := hab
    refine ⟨by rw [heq]; rfl, ?_⟩
    intro ch hch
    rw [heq] at hch
    rcases List.mem_cons.mp hch with rfl | hch
    · exact ha
    rcases List.mem_cons.mp hch with rfl | hch
    · exact hb
    rcases List.mem_cons.mp hch with rfl | hch
    · exact hc
    rcases List.mem_cons.mp hch with rfl | hch
    · exact hd
    · cases hch
  next => cases h

/-- `lexLe` is total. -/
theorem lexLe_total : ∀ as bs : List Char, lexLe as bs = true ∨ lexLe bs as = true := by
  intro as
  induction as with
  | nil => intro bs; left; rfl
  | cons a as ih =>
    intro bs
    cases bs with
    | nil => right; rfl
    | cons b bs =>
      rcases lt_trichotomy a b with h | rfl | h
      · left; simp [lexLe, h]
      · rcases ih bs with h | h
        · left; simpa [lexLe] using h
        · right; simpa [lexLe] using h
      · right; simp [lexLe, h]

/-- `lexLe` is transitive. -/
theorem lexLe_trans : ∀ as bs cs : List Char,
    lexLe as bs = true → lexLe bs cs = true → lexLe as cs = true := by
  intro as
  induction as with
  | nil => intro bs cs _ _; rfl
  | cons a as ih =>
    intro bs cs h1 h2
    cases bs with
    | nil => simp [lexLe] at h1
    | cons b bs =>
      cases cs with
      | nil => simp [lexLe] at h2
      | cons c cs =>
        rcases lt_trichotomy a b with hab | rfl | hab
        · rcases lt_trichotomy b c with hbc | rfl | hbc
          · simp [lexLe, lt_trans hab hbc]
          · simp [lexLe, hab]
          · rw [lexLe, if_neg (asymm hbc), if_pos hbc] at h2
            cases h2
        · rcases lt_trichotomy a c with hac | rfl | hac
          · simp [lexLe, hac]
          · rw [lexLe, if_neg (lt_irrefl a), if_neg (lt_irrefl a)] at h1 h2 ⊢
            exact ih bs cs h1 h2
          · rw [lexLe, if_neg (asymm hac), if_pos hac] at h2
            cases h2
        · rw [lexLe, if_neg (asymm hab), if_pos hab] at h1
          cases h1

/-- `lexLe as bs` forbids a strict lexicographic descent from `bs` to
`as`. -/
theorem not_lex_of_lexLe : ∀ as bs : List Char, lexLe as bs = true →
    ¬ List.Lex (· < ·) bs as := by
  intro as
  induction as with
  | nil => intro bs _ hl; cases hl
  | cons a as ih =>
    intro bs h hl
    cases bs with
    | nil => simp [lexLe] at h
    | cons b bs =>
      cases hl with
      | rel hba =>
        rw [lexLe, if_neg (asymm hba), if_pos hba] at h
        cases h
      | cons hl' =>
        rw [lexLe, if_neg (lt_irrefl a), if_neg (lt_irrefl a)] at h
        exact ih bs h hl'

/-- A true `pyStrLe` comparison is a `≤` in the string order. -/
theorem le_of_pyStrLe {a b : String} (h : pyStrLe a b = true) : a ≤ b := by
  rw [String.le_iff_toList_le]
  refine le_of_not_lt (fun hlt => not_lex_of_lexLe a.toList b.toList h ?_)
  exact hlt

theorem strDescOrder_total : ∀ a b : String, strDescOrder a b ∨ strDescOrder b a :=
  fun a b => (lexLe_total b.toList a.toList).imp id id

theorem strDescOrder_trans :
    ∀ a b c : String, strDescOrder a b → strDescOrder b c → strDescOrder a c :=
  fun a b c h1 h2 => lexLe_trans c.toList b.toList a.toList h2 h1

/-- `sorted(set(xs), reverse=True)` is empty only for empty input, has no
duplicates, keeps only elements of the input, and is descending. -/
theorem sortedSetDesc_props (xs : List String) :
    (xs ≠ [] → sortedSetDesc xs ≠ []) ∧ (sortedSetDesc xs).Nodup ∧
      (∀ y ∈ sortedSetDesc xs, y ∈ xs) ∧ List.Sorted (· ≥ ·) (sortedSetDesc xs) := by
  have hperm : (sortedSetDesc xs).Perm xs.dedup := List.perm_insertionSort _ _
  refine ⟨?_, ?_, ?_, ?_⟩
  · intro hne hnil
    have hlen := hperm.length_eq
    rw [hnil] at hlen
    have hd : xs.dedup ≠ [] := fun h0 => hne ((List.dedup_eq_nil xs).mp h0)
    cases hdd : xs.dedup with
    | nil => exact hd hdd
    | cons z zs => rw [hdd] at hlen; cases hlen
  · exact hperm.symm.nodup (List.nodup_dedup xs)
  · intro y hy
    exact List.mem_dedup.mp (hperm.mem_iff.mp hy)
  · haveI : IsTotal String strDescOrder := ⟨strDescOrder_total⟩
    haveI : IsTrans String strDescOrder := ⟨strDescOrder_trans⟩
    exact (List.sorted_insertionSort strDescOrder xs.dedup).imp
      (fun {a b} h => le_of_pyStrLe h)

/-- C8, confirmed.  Whenever `load` returns without raising, `get_years()`
is a non-empty, duplicate-free list of four-digit year strings sorted in
descending string order — on the header/row detection path (deduplicated,
descending-sorted tokens) as well as on the positional fallback path. -/
theorem C8_years_wellformed (raw : RawDF) (h : exceptIsOk (loadPyG raw).1 = true) :
    (loadPyG raw).2 ≠ [] ∧ (loadPyG raw).2.Nodup ∧
      (∀ y ∈ (loadPyG raw).2, fourDigitYear y) ∧
      List.Sorted (· ≥ ·) (loadPyG raw).2 := by
  obtain ⟨df, ys, hd, hys⟩ := loadPyG_ok_detect raw h
  rw [hys]
  unfold detectAndRename at hd
  cases hdet : detectedYearCols raw with
  | nil =>
    rw [hdet] at hd
    by_cases h10 : 10 ≤ raw.cols.length
    · rw [if_pos h10] at hd
      by_cases heq : raw.cols.length = 10
      · rw [if_pos heq] at hd
        injection hd with hd
        injection hd with hd1 hd2
        rw [← hd2]
        refine ⟨by decide, by decide, by decide, ?_⟩
        have hs := (sortedSetDesc_props fallbackYears).2.2.2
        rwa [show sortedSetDesc fallbackYears = fallbackYears from by decide] at hs
      · rw [if_neg heq] at hd; cases hd
    · rw [if_neg h10] at hd; cases hd
  | cons yc ycs =>
    rw [hdet] at hd
    injection hd with hd
    injection hd with hd1 hd2
    have hne : sortedSetDesc ((yc :: ycs).map (·.2)) ≠ [] :=
      (sortedSetDesc_props _).1 (by simp)
    rw [if_neg hne] at hd2
    rw [← hd2]
    obtain ⟨_, hnd, hmem, hsort⟩ := sortedSetDesc_props ((yc :: ycs).map (·.2))
    refine ⟨hne, hnd, ?_, hsort⟩
    intro y hy
    rcases List.mem_map.mp (hmem y hy) with ⟨iy, hiy, rfl⟩
    exact fourDigit_of_yearToken iy.2
      (detectedYearCols_tokens raw iy (by rw [hdet]; exact hiy))

/-- Witness for `C8_years_wellformed`: a sheet with year headers 2024 and
2023 loads and yields `['2024', '2023']`, which satisfies all four
properties. -/
theorem C8_years_wellformed_witness :
    exceptIsOk (loadPyG c8Raw).1 = true ∧
    ((loadPyG c8Raw).2 ≠ [] ∧ (loadPyG c8Raw).2.Nodup ∧
      (∀ y ∈ (loadPyG c8Raw).2, fourDigitYear y) ∧
      List.Sorted (· ≥ ·) (loadPyG c8Raw).2) :=
  ⟨by decide, C8_years_wellformed c8Raw (by decide)⟩

end PyG
